import Mathlib

/-!
Shallow embedding of the glucose-agent backend (repository `glucose-agent`,
directory `src/backend/`).  The repository holds four redundant variants of
one extraction-validation-confirmation pipeline:

* `main.py`            — WebSocket variant (namespace `MainWS` below);
* `main_complex.py`    — HTTP variant with a server-held pending-reading
  store (namespace `Complex`);
* `main_working_saving.py` — HTTP variant backed by SQLite (namespace
  `Sqlite`);
* `main_no_db.py`      — stateless variant (no storage; nothing in the
  claims depends on it beyond what the other variants already cover).

Modelling conventions:

* Python `float` glucose values are modelled as `ℚ`.
* `datetime.date` values are modelled as `ℤ` day ordinals: comparison of
  dates is integer comparison and `(a - b).days` is integer subtraction.
* Python f-string interpolation of a raw float (`{x}`) and of a date
  (`{d}`) is delegated to the runtime, so the message-producing functions
  take rendering parameters `fstr : ℚ → String` and `fdate : ℤ → String`.
  The fixed one-decimal format `{x:.1f}` is modelled concretely by `fmt1`.
* The language-model collaborators (conversation agent, extraction agent)
  are external: their results enter the model as parameters (a reply
  string, and an extraction outcome `BloodSugarReading ⊕ InvalidReading`).
* Python dicts keyed by session id are modelled as association lists with
  in-place update (`dictSet`) and key deletion (`dictErase`).
* Conversation transcripts (`message_histories` / `message_history`) are
  state owned by the external collaborator and are not modelled; no claim
  mentions them.
-/

inductive MealStatus where
  | fasting
  | prandial
  deriving DecidableEq, Repr

/-- The `.value` of the Python `str` enum: `"fasting"` / `"prandial"`. -/
def MealStatus.value : MealStatus → String
  | .fasting => "fasting"
  | .prandial => "prandial"

/-- Model of the Python fixed-point format `f"{q:.1f}"`: round to one
decimal place and print with exactly one digit after the point. -/
def fmt1 (q : ℚ) : String :=
  let n : ℤ := round (10 * q)
  let s : String := if n < 0 then "-" else ""
  s ++ toString (n.natAbs / 10) ++ "." ++ toString (n.natAbs % 10)

/-- Model of Python `str.lower()` (character-wise lowering). -/
def pyLower (s : String) : String := String.mk (s.data.map Char.toLower)

/-- Python dict update `d[k] = v` on an association list (in-place update
of an existing key, append otherwise — insertion order preserved). -/
def dictSet {α : Type} (k : String) (v : α) : List (String × α) → List (String × α)
  | [] => [(k, v)]
  | (k0, v0) :: rest => if k0 == k then (k, v) :: rest else (k0, v0) :: dictSet k v rest

/-- Python dict deletion `del d[k]` (with the guarding `if k in d`). -/
def dictErase {α : Type} (k : String) (l : List (String × α)) : List (String × α) :=
  l.filter (fun p => !(p.1 == k))

namespace MainWS

/-- Reading model of `main.py` (`BloodSugarReading`): no `id` field; the
pydantic bounds `ge=30, le=600` on `glucose_level` are enforced at
construction by `mkReading` below. -/
structure BloodSugarReading where
  glucose_level : ℚ
  date : ℤ
  meal_status : MealStatus
  notes : Option String
  deriving DecidableEq, Repr

structure InvalidReading where
  reason : String
  deriving DecidableEq, Repr

/-- Pydantic construction of `BloodSugarReading`: the `Field(ge=30, le=600)`
constraint makes construction fail (a `ValidationError`) outside the range. -/
def mkReading (glucose_level : ℚ) (date : ℤ) (meal_status : MealStatus)
    (notes : Option String) : Option BloodSugarReading :=
  if 30 ≤ glucose_level ∧ glucose_level ≤ 600 then
    some ⟨glucose_level, date, meal_status, notes⟩
  else
    none

/-- The agent tool `validate_blood_sugar` (main.py lines 116-135): builds
both error messages independently and returns either the reading unchanged
or an `InvalidReading` with the newline-joined reasons. -/
def validate_blood_sugar (fstr : ℚ → String) (fdate : ℤ → String)
    (reading : BloodSugarReading) (today : ℤ) : BloodSugarReading ⊕ InvalidReading :=
  let errors : List String :=
    (if reading.glucose_level < 30 ∨ reading.glucose_level > 600 then
      ["Blood sugar level " ++ fstr reading.glucose_level ++
        " mg/dL is outside typical meter range (30-600 mg/dL)"]
    else []) ++
    (if reading.date > today then
      ["Date cannot be in the future: " ++ fdate reading.date ++ " > " ++ fdate today]
    else [])
  if errors ≠ [] then Sum.inr ⟨String.intercalate "\n" errors⟩ else Sum.inl reading

/-- The direct validation function `validate_reading` (main.py lines
166-184): returns `(is_valid, error_message)`. -/
def validate_reading (fstr : ℚ → String) (fdate : ℤ → String)
    (reading : BloodSugarReading) (today : ℤ) : Bool × String :=
  let errors : List String :=
    (if reading.glucose_level < 30 ∨ reading.glucose_level > 600 then
      ["Blood sugar level " ++ fstr reading.glucose_level ++
        " mg/dL is outside typical meter range (30-600 mg/dL)"]
    else []) ++
    (if reading.date > today then
      ["Date cannot be in the future: " ++ fdate reading.date ++ " > " ++ fdate today]
    else [])
  if errors ≠ [] then (false, String.intercalate "\n" errors) else (true, "")

/-- The trend-analysis tool `analyze_trend` (main.py lines 140-162), as a
function of the previous readings held in `Deps`. -/
def analyze_trend (previous_readings : List BloodSugarReading)
    (new_reading : BloodSugarReading) : String :=
  if previous_readings = [] then "This is your first recorded reading."
  else
    let similar_readings :=
      previous_readings.filter (fun r => r.meal_status == new_reading.meal_status)
    if similar_readings = [] then
      "This is your first " ++ new_reading.meal_status.value ++ " reading."
    else
      let avg := (similar_readings.map (fun r => r.glucose_level)).sum /
        similar_readings.length
      if |new_reading.glucose_level - avg| < 10 then
        "This reading is consistent with your average " ++
          new_reading.meal_status.value ++ " level of " ++ fmt1 avg ++ " mg/dL."
      else if new_reading.glucose_level > avg then
        "This reading is " ++ fmt1 (new_reading.glucose_level - avg) ++
          " mg/dL higher than your average " ++ new_reading.meal_status.value ++
          " level of " ++ fmt1 avg ++ " mg/dL."
      else
        "This reading is " ++ fmt1 (avg - new_reading.glucose_level) ++
          " mg/dL lower than your average " ++ new_reading.meal_status.value ++
          " level of " ++ fmt1 avg ++ " mg/dL."

/-- `BloodSugarDatabase` (main.py lines 188-197): a growing list of
confirmed readings. -/
structure BloodSugarDatabase where
  readings : List BloodSugarReading
  deriving DecidableEq, Repr

def BloodSugarDatabase.add_reading (db : BloodSugarDatabase)
    (reading : BloodSugarReading) : BloodSugarDatabase :=
  { db with readings := db.readings ++ [reading] }

def BloodSugarDatabase.get_readings (db : BloodSugarDatabase) :
    List BloodSugarReading :=
  db.readings

/-- Outbound event of the WebSocket `message` action. -/
inductive WSReply where
  | msg (text : String)
  | reading_extracted (reading : BloodSugarReading)
  deriving DecidableEq, Repr

/-- The `action == "message"` branch of `websocket_endpoint` (main.py lines
316-371), given the external extraction outcome and the conversational
reply text.  The inline validation duplicates `validate_reading` but joins
the violations with `"; "` inside a framing sentence. -/
def ws_handle_message (fstr : ℚ → String) (fdate : ℤ → String) (today : ℤ)
    (extraction : BloodSugarReading ⊕ InvalidReading)
    (conv_reply : String) : WSReply :=
  match extraction with
  | Sum.inl reading =>
    let errors : List String :=
      (if reading.glucose_level < 30 ∨ reading.glucose_level > 600 then
        ["Blood sugar level " ++ fstr reading.glucose_level ++
          " mg/dL is outside typical meter range (30-600 mg/dL)"]
      else []) ++
      (if reading.date > today then
        ["Date cannot be in the future: " ++ fdate reading.date ++ " > " ++ fdate today]
      else [])
    if errors ≠ [] then
      .msg ("I couldn\x27t validate your reading: " ++ String.intercalate "; " errors)
    else
      .reading_extracted reading
  | Sum.inr _ => .msg conv_reply

/-- The `action == "confirm_reading"` branch of `websocket_endpoint`
(main.py lines 373-428): rebuilds the reading from the client payload
(pydantic construction can fail on the glucose bounds, modelled by
`none`), appends it to the database unconditionally, and computes the
trend against `readings[:-1]`, the list without the just-added reading. -/
def ws_confirm_reading (db : BloodSugarDatabase) (glucose_level : ℚ) (date : ℤ)
    (meal_status : MealStatus) (notes : String) :
    Option (BloodSugarDatabase × String) :=
  match mkReading glucose_level date meal_status
      (if notes == "" then none else some notes) with
  | none => none
  | some reading =>
    let db1 := db.add_reading reading
    let readings := db1.get_readings
    let trend_analysis :=
      if readings.length ≤ 1 then "This is your first recorded reading."
      else
        let previous_readings := readings.dropLast
        let similar_readings :=
          previous_readings.filter (fun r => r.meal_status == reading.meal_status)
        if similar_readings = [] then
          "This is your first " ++ reading.meal_status.value ++ " reading."
        else
          let avg := (similar_readings.map (fun r => r.glucose_level)).sum /
            similar_readings.length
          if |reading.glucose_level - avg| < 10 then
            "This reading is consistent with your average " ++
              reading.meal_status.value ++ " level of " ++ fmt1 avg ++ " mg/dL."
          else if reading.glucose_level > avg then
            "This reading is " ++ fmt1 (reading.glucose_level - avg) ++
              " mg/dL higher than your average " ++ reading.meal_status.value ++
              " level of " ++ fmt1 avg ++ " mg/dL."
          else
            "This reading is " ++ fmt1 (avg - reading.glucose_level) ++
              " mg/dL lower than your average " ++ reading.meal_status.value ++
              " level of " ++ fmt1 avg ++ " mg/dL."
    some (db1, "Great! I\x27ve saved your reading. " ++ trend_analysis ++
      "\n\nDo you have any other readings to share or questions about your blood sugar?")

end MainWS

namespace Complex

/-- Reading model of `main_complex.py` (lines 55-68): an `id` string whose
`default_factory` draws a fresh uuid at construction time — the id is thus
supplied when the object is built (during extraction), never later.  The
pydantic glucose bounds are as in `MainWS`. -/
structure BloodSugarReading where
  id : String
  glucose_level : ℚ
  date : ℤ
  meal_status : MealStatus
  notes : Option String
  deriving DecidableEq, Repr

structure InvalidReading where
  reason : String
  deriving DecidableEq, Repr

structure ChatResponse where
  response : String
  extracted_reading : Option BloodSugarReading
  needs_confirmation : Bool
  deriving DecidableEq, Repr

/-- In-memory `Database` of main_complex.py (lines 116-145); the
`message_history` dict is collaborator state and is not modelled. -/
structure Database where
  readings : List (String × List BloodSugarReading)
  pending_readings : List (String × BloodSugarReading)
  deriving DecidableEq, Repr

def Database.get_readings (db : Database) (user_id : String) :
    List BloodSugarReading :=
  (db.readings.lookup user_id).getD []

def Database.add_reading (db : Database) (user_id : String)
    (reading : BloodSugarReading) : Database :=
  { db with readings := dictSet user_id (db.get_readings user_id ++ [reading]) db.readings }

def Database.set_pending_reading (db : Database) (session_id : String)
    (reading : BloodSugarReading) : Database :=
  { db with pending_readings := dictSet session_id reading db.pending_readings }

def Database.get_pending_reading (db : Database) (session_id : String) :
    Option BloodSugarReading :=
  db.pending_readings.lookup session_id

def Database.clear_pending_reading (db : Database) (session_id : String) : Database :=
  { db with pending_readings := dictErase session_id db.pending_readings }

/-- `analyze_trend` of main_complex.py (lines 229-251) — textually the same
algorithm as `MainWS.analyze_trend`, over readings that carry an id. -/
def analyze_trend (previous_readings : List BloodSugarReading)
    (new_reading : BloodSugarReading) : String :=
  if previous_readings = [] then "This is your first recorded reading."
  else
    let similar_readings :=
      previous_readings.filter (fun r => r.meal_status == new_reading.meal_status)
    if similar_readings = [] then
      "This is your first " ++ new_reading.meal_status.value ++ " reading."
    else
      let avg := (similar_readings.map (fun r => r.glucose_level)).sum /
        similar_readings.length
      if |new_reading.glucose_level - avg| < 10 then
        "This reading is consistent with your average " ++
          new_reading.meal_status.value ++ " level of " ++ fmt1 avg ++ " mg/dL."
      else if new_reading.glucose_level > avg then
        "This reading is " ++ fmt1 (new_reading.glucose_level - avg) ++
          " mg/dL higher than your average " ++ new_reading.meal_status.value ++
          " level of " ++ fmt1 avg ++ " mg/dL."
      else
        "This reading is " ++ fmt1 (avg - new_reading.glucose_level) ++
          " mg/dL lower than your average " ++ new_reading.meal_status.value ++
          " level of " ++ fmt1 avg ++ " mg/dL."

/-- The `/chat` endpoint of main_complex.py (lines 271-317), given the
conversational reply and the extraction outcome as external inputs.
Note the guard: the extraction agent is consulted only when the session
has no pending reading; with a pending reading present the endpoint
returns the conversational reply and leaves all state unchanged. -/
def chat (fstr : ℚ → String) (fdate : ℤ → String) (db : Database)
    (session_id message conv_reply : String)
    (extracted : BloodSugarReading ⊕ InvalidReading) : Database × ChatResponse :=
  if pyLower message ∈ (["exit", "quit", "bye"] : List String) then
    (db, ⟨"Take care! Remember to check your blood sugar regularly.", none, false⟩)
  else
    match db.get_pending_reading session_id with
    | none =>
      match extracted with
      | Sum.inl data =>
        (db.set_pending_reading session_id data,
          ⟨"I see you\x27ve shared a reading of " ++ fstr data.glucose_level ++
            " mg/dL (" ++ data.meal_status.value ++ ") on " ++ fdate data.date ++
            ". Is this correct?", some data, true⟩)
      | Sum.inr _ => (db, ⟨conv_reply, none, false⟩)
    | some _ => (db, ⟨conv_reply, none, false⟩)

inductive ConfirmResult where
  | ok (message : String)
  | httpError (status : Nat) (detail : String)
  deriving DecidableEq, Repr

/-- The `/confirm-reading` endpoint of main_complex.py (lines 320-344).
On `confirm=true` the reading is added to the store first and the trend is
then computed over `db.get_readings user_id` — the post-commit list, which
contains the just-committed reading. -/
def confirm_reading (db : Database) (session_id : String) (confirm : Bool) :
    Database × ConfirmResult :=
  match db.get_pending_reading session_id with
  | none => (db, .httpError 404 "No pending reading found")
  | some reading =>
    if confirm then
      let db1 := db.add_reading session_id reading
      let db2 := db1.clear_pending_reading session_id
      let trend := analyze_trend (db2.get_readings session_id) reading
      (db2, .ok ("Great! I\x27ve saved your reading. " ++ trend))
    else
      (db.clear_pending_reading session_id,
        .ok "No problem, let\x27s try again. What was your reading?")

end Complex

namespace Sqlite

/-- Reading model of main_working_saving.py (lines 43-48): `id` is
optional and `glucose_level` carries no pydantic bounds. -/
structure BloodSugarReading where
  id : Option String
  glucose_level : ℚ
  date : ℤ
  meal_status : MealStatus
  notes : Option String
  deriving DecidableEq, Repr

structure InvalidReading where
  reason : String
  deriving DecidableEq, Repr

structure ChatResponse where
  response : String
  extracted_reading : Option BloodSugarReading
  needs_confirmation : Bool
  deriving DecidableEq, Repr

/-- A row of the SQLite `readings` table; the `id` column is always
populated by the single INSERT statement. -/
structure Row where
  id : String
  session_id : String
  glucose_level : ℚ
  date : ℤ
  meal_status : MealStatus
  notes : Option String
  confirmed : Bool
  deriving DecidableEq, Repr

/-- The SQLite database state: the `users` table and the `readings`
table (timestamp columns are not modelled). -/
structure Db where
  users : List String
  rows : List Row
  deriving DecidableEq, Repr

def Db.empty : Db := ⟨[], []⟩

/-- The `/chat` endpoint of main_working_saving.py (lines 148-253), given
the conversational reply, the freshly generated uuid `gen_id`, the
reference date `today` and the extraction outcome.  A date in the future
or more than 90 days in the past is silently replaced by `today`, the
adjusted reading is inserted as pending (`confirmed = 0`) and echoed back
with the generated id for confirmation. -/
def chat (fstr : ℚ → String) (fdate : ℤ → String) (db : Db)
    (session_id conv_reply gen_id : String) (today : ℤ)
    (extracted : BloodSugarReading ⊕ InvalidReading) : Db × ChatResponse :=
  let db0 : Db :=
    { db with users := if session_id ∈ db.users then db.users else db.users ++ [session_id] }
  match extracted with
  | Sum.inl data =>
    let reading_date :=
      if data.date > today ∨ (today - data.date) > 90 then today else data.date
    let db1 : Db :=
      { db0 with rows := db0.rows ++
          [⟨gen_id, session_id, data.glucose_level, reading_date,
            data.meal_status, data.notes, false⟩] }
    let extracted_with_id : BloodSugarReading :=
      ⟨some gen_id, data.glucose_level, reading_date, data.meal_status, data.notes⟩
    (db1,
      ⟨"I see you\x27ve shared a reading of " ++ fstr data.glucose_level ++
        " mg/dL (" ++ data.meal_status.value ++ ") on " ++ fdate reading_date ++
        ". Is this correct?", some extracted_with_id, true⟩)
  | Sum.inr _ => (db0, ⟨conv_reply, none, false⟩)

/-- The `/confirm-reading` endpoint of main_working_saving.py (lines
256-291): `confirm=true` runs an UPDATE that flips `confirmed` on the
matching row (and succeeds with the same message even when no row
matches); `confirm=false` runs a DELETE keyed by id alone. -/
def confirm_reading (db : Db) (session_id reading_id : String) (confirm : Bool) :
    Db × String :=
  if confirm then
    ({ db with rows := db.rows.map (fun row =>
        if row.id == reading_id && row.session_id == session_id then
          { row with confirmed := true } else row) },
      "Great! I\x27ve saved your reading.")
  else
    ({ db with rows := db.rows.filter (fun row => !(row.id == reading_id)) },
      "No problem, let\x27s try again. What was your reading?")

/-- The `/readings/{session_id}` query (lines 294-327): rows of the
session with `confirmed = 1`.  The SQL `ORDER BY date DESC` clause is not
modelled; no claim depends on the order. -/
def get_readings (db : Db) (session_id : String) : List Row :=
  db.rows.filter (fun row => row.session_id == session_id && row.confirmed)

end Sqlite

/-- A concrete float renderer used to instantiate `fstr` parameters in
witnesses (renders integral rationals by their numerator). -/
def fstr0 : ℚ → String := fun q => toString q.num

/-- A concrete date renderer used to instantiate `fdate` parameters in
witnesses. -/
def fdate0 : ℤ → String := fun d => toString d

theorem intercalate_pair (s a b : String) : String.intercalate s [a, b] = a ++ s ++ b := rfl

theorem intercalate_single (s a : String) : String.intercalate s [a] = a := rfl

theorem lookup_dictSet {α : Type} (k : String) (v : α) (l : List (String × α)) :
    (dictSet k v l).lookup k = some v := by
  induction l with
  | nil => simp [dictSet, List.lookup]
  | cons hd tl ih =>
    by_cases h : hd.1 = k
    · simp [dictSet, h, List.lookup]
    · have h2 : (k == hd.1) = false := beq_eq_false_iff_ne.mpr (Ne.symm h)
      have h3 : (hd.1 == k) = false := beq_eq_false_iff_ne.mpr h
      simp [dictSet, h3, List.lookup, h2, ih]

/-- C5: for every candidate reading with glucose value in `[30, 600]` and a
date not after today, validation succeeds and returns the candidate
unchanged — the tool `validate_blood_sugar` returns the very same reading,
and `validate_reading` reports validity with an empty error message. -/
theorem validate_accepts_in_range_unchanged (fstr : ℚ → String) (fdate : ℤ → String)
    (r : MainWS.BloodSugarReading) (today : ℤ)
    (h1 : 30 ≤ r.glucose_level) (h2 : r.glucose_level ≤ 600) (h3 : r.date ≤ today) :
    MainWS.validate_blood_sugar fstr fdate r today = Sum.inl r ∧
    MainWS.validate_reading fstr fdate r today = (true, "") := by
  have hv : ¬(r.glucose_level < 30 ∨ r.glucose_level > 600) := by
    push_neg
    exact ⟨h1, h2⟩
  have hd : ¬(r.date > today) := not_lt.mpr h3
  constructor
  · unfold MainWS.validate_blood_sugar
    simp [hv, hd]
  · unfold MainWS.validate_reading
    simp [hv, hd]

theorem validate_accepts_in_range_unchanged_witness :
    (30 : ℚ) ≤ 100 ∧ (100 : ℚ) ≤ 600 ∧ (0 : ℤ) ≤ 0 ∧
    (MainWS.validate_blood_sugar fstr0 fdate0 ⟨100, 0, .fasting, none⟩ 0 =
      Sum.inl ⟨100, 0, .fasting, none⟩ ∧
    MainWS.validate_reading fstr0 fdate0 ⟨100, 0, .fasting, none⟩ 0 = (true, "")) :=
  ⟨by norm_num, by norm_num, by norm_num,
    validate_accepts_in_range_unchanged fstr0 fdate0 ⟨100, 0, .fasting, none⟩ 0
      (by norm_num) (by norm_num) (by norm_num)⟩

/-- C8: in the variants whose `BloodSugarReading` constrains
`glucose_level` by `ge=30, le=600` at construction, every constructible
reading is in range, so `validate_reading` can only fail on the
future-date check: its result is exactly determined by the date
comparison, and the out-of-range branch is unreachable. -/
theorem constructible_reading_range_error_unreachable
    (fstr : ℚ → String) (fdate : ℤ → String) (v : ℚ) (d : ℤ) (ms : MealStatus)
    (n : Option String) (today : ℤ) (r : MainWS.BloodSugarReading)
    (h : MainWS.mkReading v d ms n = some r) :
    MainWS.validate_reading fstr fdate r today =
      if r.date > today then
        (false, "Date cannot be in the future: " ++ fdate r.date ++ " > " ++ fdate today)
      else (true, "") := by
  unfold MainWS.mkReading at h
  by_cases hb : 30 ≤ v ∧ v ≤ 600
  · rw [if_pos hb] at h
    injection h with h
    subst h
    have hv : ¬(v < 30 ∨ v > 600) := by
      push_neg
      exact hb
    unfold MainWS.validate_reading
    by_cases hd : d > today
    · simp [hv, hd, intercalate_single]
    · simp [hv, hd]
  · rw [if_neg hb] at h
    exact absurd h (by simp)

theorem constructible_reading_range_error_unreachable_witness :
    MainWS.mkReading 100 1 .fasting none = some ⟨100, 1, .fasting, none⟩ ∧
    MainWS.validate_reading fstr0 fdate0 ⟨100, 1, .fasting, none⟩ 0 =
      (false, "Date cannot be in the future: " ++ fdate0 1 ++ " > " ++ fdate0 0) := by
  have hmk : MainWS.mkReading 100 1 .fasting none = some ⟨100, 1, .fasting, none⟩ := by
    unfold MainWS.mkReading
    norm_num
  refine ⟨hmk, ?_⟩
  have h := constructible_reading_range_error_unreachable fstr0 fdate0 100 1 .fasting
    none 0 ⟨100, 1, .fasting, none⟩ hmk
  simpa using h

/-- C4 (amended): both validation checks are evaluated independently
(when both are violated, both messages are produced), the value message
carries the offending value and the bound, the date message carries both
dates, and `validate_reading` returns the newline-joined concatenation of
the two messages; the WebSocket endpoint, however, surfaces the
violations joined by a semicolon and space inside the framing sentence
`I couldn\x27t validate your reading: ...` rather than verbatim. -/
theorem validate_reading_joins_both_errors
    (fstr : ℚ → String) (fdate : ℤ → String) (r : MainWS.BloodSugarReading)
    (today : ℤ) (conv_reply : String)
    (h1 : r.glucose_level < 30 ∨ r.glucose_level > 600) (h2 : r.date > today) :
    MainWS.validate_reading fstr fdate r today =
      (false,
        "Blood sugar level " ++ fstr r.glucose_level ++
          " mg/dL is outside typical meter range (30-600 mg/dL)" ++ "\n" ++
          ("Date cannot be in the future: " ++ fdate r.date ++ " > " ++ fdate today)) ∧
    MainWS.ws_handle_message fstr fdate today (Sum.inl r) conv_reply =
      .msg ("I couldn\x27t validate your reading: " ++
        ("Blood sugar level " ++ fstr r.glucose_level ++
          " mg/dL is outside typical meter range (30-600 mg/dL)" ++ "; " ++
          ("Date cannot be in the future: " ++ fdate r.date ++ " > " ++ fdate today))) := by
  constructor
  · unfold MainWS.validate_reading
    simp [h1, h2, intercalate_pair, String.append_assoc]
  · unfold MainWS.ws_handle_message
    simp [h1, h2, intercalate_pair, String.append_assoc]

theorem validate_reading_joins_both_errors_witness :
    ((700 : ℚ) < 30 ∨ (700 : ℚ) > 600) ∧ (5 : ℤ) > 0 ∧
    (MainWS.validate_reading fstr0 fdate0 ⟨700, 5, .fasting, none⟩ 0 =
      (false,
        "Blood sugar level " ++ fstr0 700 ++
          " mg/dL is outside typical meter range (30-600 mg/dL)" ++ "\n" ++
          ("Date cannot be in the future: " ++ fdate0 5 ++ " > " ++ fdate0 0)) ∧
    MainWS.ws_handle_message fstr0 fdate0 0 (Sum.inl ⟨700, 5, .fasting, none⟩) "reply" =
      .msg ("I couldn\x27t validate your reading: " ++
        ("Blood sugar level " ++ fstr0 700 ++
          " mg/dL is outside typical meter range (30-600 mg/dL)" ++ "; " ++
          ("Date cannot be in the future: " ++ fdate0 5 ++ " > " ++ fdate0 0)))) :=
  ⟨by norm_num, by norm_num,
    validate_reading_joins_both_errors fstr0 fdate0 ⟨700, 5, .fasting, none⟩ 0 "reply"
      (by norm_num) (by norm_num)⟩

/-- C4 (counterexample): on a candidate whose only violation is a future
date, the WebSocket endpoint surfaces
`I couldn\x27t validate your reading: <reason>` — a string different from
the rejection reason `validate_reading` computes, so the reason is not
surfaced verbatim. -/
theorem validation_rejection_not_surfaced_verbatim :
    MainWS.ws_handle_message fstr0 fdate0 0 (Sum.inl ⟨100, 1, .fasting, none⟩) "reply" =
      .msg "I couldn\x27t validate your reading: Date cannot be in the future: 1 > 0" ∧
    (MainWS.validate_reading fstr0 fdate0 ⟨100, 1, .fasting, none⟩ 0).2 =
      "Date cannot be in the future: 1 > 0" ∧
    "I couldn\x27t validate your reading: Date cannot be in the future: 1 > 0" ≠
      "Date cannot be in the future: 1 > 0" := by
  refine ⟨?_, ?_, by decide⟩
  · unfold MainWS.ws_handle_message
    norm_num [fstr0, fdate0, intercalate_single]
    decide
  · unfold MainWS.validate_reading
    norm_num [fstr0, fdate0, intercalate_single]
    decide

/-- C6: against a non-empty same-category history with arithmetic mean
`avg`, the trend classification applies a strict 10-unit dead-zone:
a candidate within strictly less than 10 units of `avg` is reported
consistent with the average; a candidate at least 10 units above `avg` is
reported higher by `candidate - avg`; a candidate at least 10 units below
is reported lower by `avg - candidate`; deltas and averages are rendered
with the one-decimal format `fmt1`. -/
theorem analyze_trend_deadzone_classification
    (prev : List MainWS.BloodSugarReading) (c : MainWS.BloodSugarReading) (avg : ℚ)
    (hne : prev ≠ [])
    (hsim : prev.filter (fun r => r.meal_status == c.meal_status) ≠ [])
    (havg : ((prev.filter (fun r => r.meal_status == c.meal_status)).map
        (fun r => r.glucose_level)).sum /
        ((prev.filter (fun r => r.meal_status == c.meal_status)).length : ℚ) = avg) :
    (|c.glucose_level - avg| < 10 →
      MainWS.analyze_trend prev c =
        "This reading is consistent with your average " ++ c.meal_status.value ++
          " level of " ++ fmt1 avg ++ " mg/dL.") ∧
    (10 ≤ c.glucose_level - avg →
      MainWS.analyze_trend prev c =
        "This reading is " ++ fmt1 (c.glucose_level - avg) ++
          " mg/dL higher than your average " ++ c.meal_status.value ++
          " level of " ++ fmt1 avg ++ " mg/dL.") ∧
    (10 ≤ avg - c.glucose_level →
      MainWS.analyze_trend prev c =
        "This reading is " ++ fmt1 (avg - c.glucose_level) ++
          " mg/dL lower than your average " ++ c.meal_status.value ++
          " level of " ++ fmt1 avg ++ " mg/dL.") := by
  unfold MainWS.analyze_trend
  simp only [havg, if_neg hne, if_neg hsim]
  refine ⟨fun h => ?_, fun h => ?_, fun h => ?_⟩
  · rw [if_pos h]
  · have hnd : ¬(|c.glucose_level - avg| < 10) := by
      rw [abs_of_nonneg (by linarith)]
      linarith
    have hgt : c.glucose_level > avg := by linarith
    rw [if_neg hnd, if_pos hgt]
  · have hnd : ¬(|c.glucose_level - avg| < 10) := by
      rw [abs_of_nonpos (by linarith)]
      linarith
    have hgt : ¬(c.glucose_level > avg) := by
      push_neg
      linarith
    rw [if_neg hnd, if_neg hgt]

theorem analyze_trend_deadzone_classification_witness :
    MainWS.analyze_trend [⟨100, 0, .fasting, none⟩] ⟨110, 0, .fasting, none⟩ =
      "This reading is 10.0 mg/dL higher than your average fasting level of 100.0 mg/dL." ∧
    MainWS.analyze_trend [⟨100, 0, .fasting, none⟩] ⟨109, 0, .fasting, none⟩ =
      "This reading is consistent with your average fasting level of 100.0 mg/dL." := by
  constructor
  · have h := (analyze_trend_deadzone_classification [⟨100, 0, .fasting, none⟩]
      ⟨110, 0, .fasting, none⟩ 100 (by simp) (by simp [List.filter])
      (by norm_num [List.filter])).2.1 (by norm_num)
    rw [h]
    norm_num [fmt1, round_eq]
    decide
  · have h := (analyze_trend_deadzone_classification [⟨100, 0, .fasting, none⟩]
      ⟨109, 0, .fasting, none⟩ 100 (by simp) (by simp [List.filter])
      (by norm_num [List.filter])).1 (by norm_num)
    rw [h]
    norm_num [fmt1, round_eq]
    decide

/-- C1: in `main_complex.py` the reading is added to the store before the
trend is computed, so the confirm-time trend message runs against the
post-commit history, which contains the just-committed reading.  On a
session whose confirmed history is empty, confirming a pending reading of
120 returns a trend that compares the reading with itself (consistent
with an average of 120.0), whereas the trend against the pre-commit
(empty) history — what the spec prescribes, and what `main.py` computes
via `readings[:-1]` — is the first-recorded-reading message. -/
theorem complex_confirm_trend_uses_postcommit_history :
    (Complex.confirm_reading ⟨[], [("s", ⟨"id1", 120, 0, .fasting, none⟩)]⟩ "s" true).2 =
      .ok ("Great! I\x27ve saved your reading. This reading is consistent with your average fasting level of 120.0 mg/dL.") ∧
    Complex.analyze_trend [] ⟨"id1", 120, 0, .fasting, none⟩ =
      "This is your first recorded reading." := by
  constructor
  · unfold Complex.confirm_reading Complex.analyze_trend fmt1
    simp [Complex.Database.get_pending_reading, Complex.Database.get_readings,
      Complex.Database.add_reading, Complex.Database.clear_pending_reading,
      dictSet, dictErase, List.lookup, List.filter]
    norm_num [round_eq]
    decide
  · unfold Complex.analyze_trend
    rfl

/-- C7 (counterexample): in the WebSocket variant a `confirm_reading`
message arriving with no prior extraction is not rejected — there is no
pending-reading check at all.  On an empty database it appends the
client-supplied reading and answers with the saved acknowledgement, so
the claimed `NoPendingReadingError` with unchanged history is false for
this variant. -/
theorem ws_confirm_without_pending_commits :
    MainWS.ws_confirm_reading ⟨[]⟩ 100 0 .fasting "" =
      some (⟨[⟨100, 0, .fasting, none⟩]⟩,
        "Great! I\x27ve saved your reading. This is your first recorded reading.\n\nDo you have any other readings to share or questions about your blood sugar?") := by
  unfold MainWS.ws_confirm_reading MainWS.mkReading
  rw [if_pos (by norm_num)]
  simp [MainWS.BloodSugarDatabase.add_reading, MainWS.BloodSugarDatabase.get_readings]

/-- C7 (amended): in the `main_complex.py` variant, a confirmation request
arriving on a session with no pending reading fails with the HTTP 404
error `No pending reading found` and leaves the database — in particular
the confirmed history — unchanged; the WebSocket variant has no such
check and commits unconditionally. -/
theorem confirm_no_pending_errors_complex
    (db : Complex.Database) (sid : String)
    (h : db.get_pending_reading sid = none) :
    Complex.confirm_reading db sid true =
      (db, .httpError 404 "No pending reading found") := by
  unfold Complex.confirm_reading
  rw [h]

theorem confirm_no_pending_errors_complex_witness :
    (Complex.Database.get_pending_reading ⟨[], []⟩ "s" = none) ∧
    Complex.confirm_reading ⟨[], []⟩ "s" true =
      (⟨[], []⟩, .httpError 404 "No pending reading found") :=
  ⟨rfl, confirm_no_pending_errors_complex ⟨[], []⟩ "s" rfl⟩

/-- C3 (counterexample): in `main_complex.py`, with a pending reading
already stored for the session, a second inbound chat message is not
treated as a fresh extraction: even when the extraction collaborator
would produce a new valid candidate, the endpoint returns only the
conversational reply, the candidate is not set as pending, and the prior
pending reading survives unchanged. -/
theorem pending_not_overwritten_by_second_chat :
    Complex.chat fstr0 fdate0 ⟨[], [("s", ⟨"idP", 100, 0, .fasting, none⟩)]⟩ "s"
        "second message" "reply"
        (Sum.inl ⟨"idQ", 200, 0, .prandial, none⟩ :
          Complex.BloodSugarReading ⊕ Complex.InvalidReading) =
      (⟨[], [("s", ⟨"idP", 100, 0, .fasting, none⟩)]⟩, ⟨"reply", none, false⟩) ∧
    (Complex.chat fstr0 fdate0 ⟨[], [("s", ⟨"idP", 100, 0, .fasting, none⟩)]⟩ "s"
        "second message" "reply"
        (Sum.inl ⟨"idQ", 200, 0, .prandial, none⟩ :
          Complex.BloodSugarReading ⊕ Complex.InvalidReading)).1.get_pending_reading "s" =
      some ⟨"idP", 100, 0, .fasting, none⟩ := by
  constructor
  · rfl
  · rfl

/-- C3 (amended): while a pending reading exists the `/chat` endpoint of
`main_complex.py` skips extraction entirely — any non-exit message yields
the conversational reply with unchanged state (the pending reading is
preserved, not overwritten); `set_pending_reading` itself does overwrite
when it is called, but the endpoint only calls it when no pending reading
exists. -/
theorem chat_with_pending_skips_extraction
    (fstr : ℚ → String) (fdate : ℤ → String) (db : Complex.Database)
    (sid message conv_reply : String)
    (extracted : Complex.BloodSugarReading ⊕ Complex.InvalidReading)
    (p : Complex.BloodSugarReading)
    (hmsg : pyLower message ∉ (["exit", "quit", "bye"] : List String))
    (hp : db.get_pending_reading sid = some p) :
    Complex.chat fstr fdate db sid message conv_reply extracted =
      (db, ⟨conv_reply, none, false⟩) ∧
    (∀ (r : Complex.BloodSugarReading) (db2 : Complex.Database) (sid2 : String),
      (db2.set_pending_reading sid2 r).get_pending_reading sid2 = some r) := by
  constructor
  · unfold Complex.chat
    rw [if_neg hmsg, hp]
  · intro r db2 sid2
    unfold Complex.Database.set_pending_reading Complex.Database.get_pending_reading
    exact lookup_dictSet sid2 r db2.pending_readings

theorem chat_with_pending_skips_extraction_witness :
    (pyLower "again" ∉ (["exit", "quit", "bye"] : List String)) ∧
    (Complex.Database.get_pending_reading ⟨[], [("s", ⟨"idP", 100, 0, .fasting, none⟩)]⟩ "s" =
      some ⟨"idP", 100, 0, .fasting, none⟩) ∧
    (Complex.chat fstr0 fdate0 ⟨[], [("s", ⟨"idP", 100, 0, .fasting, none⟩)]⟩ "s" "again"
        "reply" (Sum.inr ⟨"no reading"⟩ : Complex.BloodSugarReading ⊕ Complex.InvalidReading) =
      (⟨[], [("s", ⟨"idP", 100, 0, .fasting, none⟩)]⟩, ⟨"reply", none, false⟩) ∧
    (∀ (r : Complex.BloodSugarReading) (db2 : Complex.Database) (sid2 : String),
      (db2.set_pending_reading sid2 r).get_pending_reading sid2 = some r)) :=
  ⟨by decide, rfl,
    chat_with_pending_skips_extraction fstr0 fdate0
      ⟨[], [("s", ⟨"idP", 100, 0, .fasting, none⟩)]⟩ "s" "again" "reply"
      (Sum.inr ⟨"no reading"⟩ : Complex.BloodSugarReading ⊕ Complex.InvalidReading)
      ⟨"idP", 100, 0, .fasting, none⟩ (by decide) rfl⟩

/-- C9: the WebSocket `confirm_reading` action rebuilds the committed
reading from the client-supplied payload (there is no server-held pending
state in this variant) and never re-checks the date against today: any
constructible payload whose date lies strictly after today is appended to
the confirmed history with no error. -/
theorem ws_confirm_commits_future_date
    (db : MainWS.BloodSugarDatabase) (v : ℚ) (d : ℤ) (ms : MealStatus)
    (notes : String) (today : ℤ)
    (h1 : 30 ≤ v) (h2 : v ≤ 600) (h3 : today < d) :
    (MainWS.ws_confirm_reading db v d ms notes).map (fun out => out.1.readings) =
      some (db.readings ++
        [⟨v, d, ms, if notes == "" then none else some notes⟩]) ∧
    today < d := by
  refine ⟨?_, h3⟩
  unfold MainWS.ws_confirm_reading MainWS.mkReading
  rw [if_pos ⟨h1, h2⟩]
  simp [MainWS.BloodSugarDatabase.add_reading]

theorem ws_confirm_commits_future_date_witness :
    (30 : ℚ) ≤ 100 ∧ (100 : ℚ) ≤ 600 ∧ (0 : ℤ) < 1 ∧
    ((MainWS.ws_confirm_reading ⟨[]⟩ 100 1 .fasting "").map (fun out => out.1.readings) =
      some [⟨100, 1, .fasting, none⟩] ∧ (0 : ℤ) < 1) := by
  refine ⟨by norm_num, by norm_num, by norm_num, ?_⟩
  have h := ws_confirm_commits_future_date ⟨[]⟩ 100 1 .fasting "" 0
    (by norm_num) (by norm_num) (by norm_num)
  simpa using h

/-- C2 (counterexample): in the SQLite variant an id is assigned at mere
extraction: the chat turn that merely stores a pending (unconfirmed)
candidate already draws a uuid, writes it into the pending row, and echoes
the reading back with that id, while the confirmed history is still
empty — no commit has happened. -/
theorem id_assigned_at_extraction_before_any_commit :
    (Sqlite.chat fstr0 fdate0 Sqlite.Db.empty "s" "reply" "uuid-1" 0
        (Sum.inl ⟨none, 100, 0, .fasting, none⟩ :
          Sqlite.BloodSugarReading ⊕ Sqlite.InvalidReading)).2.extracted_reading =
      some ⟨some "uuid-1", 100, 0, .fasting, none⟩ ∧
    (Sqlite.chat fstr0 fdate0 Sqlite.Db.empty "s" "reply" "uuid-1" 0
        (Sum.inl ⟨none, 100, 0, .fasting, none⟩ :
          Sqlite.BloodSugarReading ⊕ Sqlite.InvalidReading)).2.needs_confirmation = true ∧
    Sqlite.get_readings (Sqlite.chat fstr0 fdate0 Sqlite.Db.empty "s" "reply" "uuid-1" 0
        (Sum.inl ⟨none, 100, 0, .fasting, none⟩ :
          Sqlite.BloodSugarReading ⊕ Sqlite.InvalidReading)).1 "s" = [] ∧
    (Sqlite.chat fstr0 fdate0 Sqlite.Db.empty "s" "reply" "uuid-1" 0
        (Sum.inl ⟨none, 100, 0, .fasting, none⟩ :
          Sqlite.BloodSugarReading ⊕ Sqlite.InvalidReading)).1.rows.map
        (fun row => (row.id, row.confirmed)) = [("uuid-1", false)] :=
  ⟨rfl, rfl, rfl, rfl⟩

/-- C2 (amended): an id is assigned at extraction time — the chat turn
that stores a candidate as pending generates the uuid and attaches it to
both the stored row and the echoed reading — and confirmation assigns no
new id: committing only flips the `confirmed` flag, preserving every row
id; consequently every reading persisted (pending or confirmed) carries
an id from the moment it is stored. -/
theorem extraction_assigns_id_commit_preserves_it
    (fstr : ℚ → String) (fdate : ℤ → String) (db : Sqlite.Db)
    (sid conv gen : String) (today : ℤ) (data : Sqlite.BloodSugarReading) :
    ((Sqlite.chat fstr fdate db sid conv gen today (Sum.inl data)).1.rows =
      db.rows ++
        [⟨gen, sid, data.glucose_level,
          if data.date > today ∨ (today - data.date) > 90 then today else data.date,
          data.meal_status, data.notes, false⟩] ∧
    (Sqlite.chat fstr fdate db sid conv gen today (Sum.inl data)).2.extracted_reading =
      some ⟨some gen, data.glucose_level,
        if data.date > today ∨ (today - data.date) > 90 then today else data.date,
        data.meal_status, data.notes⟩ ∧
    (Sqlite.chat fstr fdate db sid conv gen today (Sum.inl data)).2.needs_confirmation =
      true) ∧
    (∀ (db2 : Sqlite.Db) (sid2 rid : String),
      (Sqlite.confirm_reading db2 sid2 rid true).1.rows.map Sqlite.Row.id =
        db2.rows.map Sqlite.Row.id) := by
  constructor
  · refine ⟨rfl, rfl, rfl⟩
  · intro db2 sid2 rid
    unfold Sqlite.confirm_reading
    simp only [if_pos trivial, List.map_map]
    refine List.map_congr_left ?_
    intro row _
    by_cases h : row.id == rid && row.session_id == sid2
    · simp [h, Function.comp]
    · simp [h, Function.comp]

/-- C10: in the SQLite variant, an extracted reading whose date is
strictly after today, or more than 90 days before today, has its date
silently replaced by today before the pending row is stored and echoed
back for confirmation; the turn still asks `Is this correct?` with
`needs_confirmation` set — no rejection is produced. -/
theorem sqlite_chat_clamps_out_of_window_dates
    (fstr : ℚ → String) (fdate : ℤ → String) (db : Sqlite.Db)
    (sid conv gen : String) (today : ℤ) (data : Sqlite.BloodSugarReading)
    (h : data.date > today ∨ (today - data.date) > 90) :
    (Sqlite.chat fstr fdate db sid conv gen today (Sum.inl data)).1.rows =
      db.rows ++
        [⟨gen, sid, data.glucose_level, today, data.meal_status, data.notes, false⟩] ∧
    (Sqlite.chat fstr fdate db sid conv gen today (Sum.inl data)).2 =
      ⟨"I see you\x27ve shared a reading of " ++ fstr data.glucose_level ++
          " mg/dL (" ++ data.meal_status.value ++ ") on " ++ fdate today ++
          ". Is this correct?",
        some ⟨some gen, data.glucose_level, today, data.meal_status, data.notes⟩,
        true⟩ := by
  unfold Sqlite.chat
  simp only [if_pos h]
  exact ⟨trivial, trivial⟩

theorem sqlite_chat_clamps_out_of_window_dates_witness :
    ((5 : ℤ) > 0 ∨ (0 : ℤ) - 5 > 90) ∧
    ((Sqlite.chat fstr0 fdate0 Sqlite.Db.empty "s" "reply" "uuid-1" 0
        (Sum.inl ⟨none, 100, 5, .fasting, none⟩ :
          Sqlite.BloodSugarReading ⊕ Sqlite.InvalidReading)).1.rows =
      [⟨"uuid-1", "s", 100, 0, .fasting, none, false⟩] ∧
    (Sqlite.chat fstr0 fdate0 Sqlite.Db.empty "s" "reply" "uuid-1" 0
        (Sum.inl ⟨none, 100, 5, .fasting, none⟩ :
          Sqlite.BloodSugarReading ⊕ Sqlite.InvalidReading)).2 =
      ⟨"I see you\x27ve shared a reading of " ++ fstr0 100 ++ " mg/dL (fasting) on " ++
          fdate0 0 ++ ". Is this correct?",
        some ⟨some "uuid-1", 100, 0, .fasting, none⟩, true⟩) := by
  refine ⟨by norm_num, ?_⟩
  have h := sqlite_chat_clamps_out_of_window_dates fstr0 fdate0 Sqlite.Db.empty
    "s" "reply" "uuid-1" 0 ⟨none, 100, 5, .fasting, none⟩ (by norm_num)
  simpa [Sqlite.Db.empty, MealStatus.value] using h
